import Mathlib

/-!
Verification of the `ansible-toolbox` CLI launcher.

Shallow embedding of `src/ansible_toolbox/core.py`, `__main__.py` and
`config.py`.  Filesystem-dependent ingredients are explicit parameters:
the current working directory is a list of path components (the result of
`Path.cwd().resolve()`), the `Path(arg).exists()` test is a predicate
`pathExists : String → Bool`, and each external `subprocess.run` call is
represented by its exit code.  Python exceptions become `Except`.
-/

deriving instance DecidableEq for Except

namespace AnsibleToolbox

/-! ## Path model

A POSIX path string is parsed into (absolute?, raw components); resolution
(`Path(p).resolve()`) prefixes the working directory to a relative path and
then collapses `.` and `..` components lexically (symlinks are outside the
model).  `Path.relative_to` succeeds exactly when the base is a component
prefix, and yields the remaining suffix.
-/

/-- Split a character list at every occurrence of `sep`, keeping empty
pieces (the behaviour of `str.split(sep)` / `String.splitOn`).  The fuel
argument makes the recursion structural; `fuel = cs.length` always
suffices since every step consumes at least one character. -/
def splitOnAux (sep : List Char) : Nat → List Char → List Char →
    List (List Char)
  | 0, cs, acc => [acc.reverse ++ cs]
  | _ + 1, [], acc => [acc.reverse]
  | fuel + 1, c :: rest, acc =>
    if sep.isPrefixOf (c :: rest) then
      acc.reverse :: splitOnAux sep fuel ((c :: rest).drop sep.length) []
    else splitOnAux sep fuel rest (c :: acc)

/-- String version of `splitOnAux`: `s.split(sep)`. -/
def splitOnStr (s sep : String) : List String :=
  (splitOnAux sep.data s.data.length s.data []).map List.asString

/-- Whether `t` occurs as a substring of `s`: splitting `s` on `t` yields more
than one piece. -/
def mentions (s t : String) : Bool :=
  2 ≤ (splitOnStr s t).length

/-- Whether a POSIX path string is absolute. -/
def isAbsolute (s : String) : Bool :=
  match s.data with
  | c :: _ => c = '/'
  | [] => false

/-- Component list of a path string: split on `/`, dropping empty pieces
(`"a//b"`, leading or trailing slashes). -/
def pathComponents (s : String) : List String :=
  (splitOnStr s "/").filter (fun c => c ≠ "")

/-- Collapse `.` and `..` components of an absolute component list, as
`Path.resolve` does lexically (`..` at the root stays at the root). -/
def normalizeComponents : List String → List String → List String
  | acc, [] => acc
  | acc, c :: rest =>
    if c = "." then normalizeComponents acc rest
    else if c = ".." then normalizeComponents acc.dropLast rest
    else normalizeComponents (acc ++ [c]) rest

/-- Resolution `Path(s).resolve()` relative to the resolved working directory `cwd`:
an absolute string starts from the root, a relative one from `cwd`. -/
def resolvePath (cwd : List String) (s : String) : List String :=
  if isAbsolute s then normalizeComponents [] (pathComponents s)
  else normalizeComponents [] (cwd ++ pathComponents s)

/-- Rendering `str(Path("/workspace") / rel)`: the empty relative path (Python's
`Path(".")`) renders as `/workspace` with no trailing separator. -/
def workspaceJoin (rel : List String) : String :=
  if rel.isEmpty then "/workspace"
  else "/workspace/" ++ String.intercalate "/" rel

namespace Core

/-- Model of `core.translate_path`: resolve, make relative to the working
directory, prefix `/workspace`; outside paths raise `ValueError` whose
message carries the offending path. -/
def translate_path (cwd : List String) (path : String) : Except String String :=
  let abs_path := resolvePath cwd path
  if cwd.isPrefixOf abs_path then
    Except.ok (workspaceJoin (abs_path.drop cwd.length))
  else
    Except.error ("Path " ++ path ++
      " is outside the current workspace and cannot be accessed in the container")

end Core

namespace Cli

/-- Model of `__main__.translate_path`: identical to `core.translate_path` except
that the error message ends with a period. -/
def translate_path (cwd : List String) (path : String) : Except String String :=
  let abs_path := resolvePath cwd path
  if cwd.isPrefixOf abs_path then
    Except.ok (workspaceJoin (abs_path.drop cwd.length))
  else
    Except.error ("Path " ++ path ++
      " is outside the current workspace and cannot be " ++
      "accessed in the container.")

end Cli

/-! ## Configuration (`config.py`) -/

namespace Config

def DEFAULT_IMAGE_NAME : String := "ansible-toolbox:latest"

def DEFAULT_PYTHON_PACKAGES : List String :=
  ["requests==2.32.3", "docker==7.1.0"]

/-- The `DOCKERFILE_TEMPLATE` string of `config.py` (a `string.Template`
with delimiter `%`; the `$PATH` and `$VIRTUAL_ENV` occurrences are inert). -/
def DOCKERFILE_TEMPLATE : String :=
  "\nFROM docker.io/alpine:latest\n\n" ++
  "ENV PYTHONUNBUFFERED=1 \\\n" ++
  "    PYTHONIOENCODING=UTF-8 \\\n" ++
  "    PIP_NO_CACHE_DIR=yes \\\n" ++
  "    VIRTUAL_ENV=/install/.venv \\\n" ++
  "    PATH=\"/install/.venv/bin:$PATH\"\n\n" ++
  "RUN apk add --no-cache \\\n" ++
  "    ca-certificates \\\n" ++
  "    openssh \\\n" ++
  "    git \\\n" ++
  "    python3 \\\n" ++
  "    py3-pip \\\n" ++
  "    && python3 -m venv $VIRTUAL_ENV \\\n" ++
  "    && pip install --no-cache-dir ansible %additional_packages \\\n" ++
  "    && rm -rf /tmp/* /var/cache/apk/* /root/.cache\n"

/-- Model of `Template.substitute` with delimiter `%` on a template whose only
placeholder is `%additional_packages` (no `%%` escapes occur): splice the
value at every occurrence of the placeholder. -/
def templateSubstitute (tmpl value : String) : String :=
  String.intercalate value (splitOnStr tmpl "%additional_packages")

/-- Everything of `DOCKERFILE_TEMPLATE` before the placeholder; it ends in
the package-install line `pip install --no-cache-dir ansible `. -/
def dockerfilePre : String :=
  "\nFROM docker.io/alpine:latest\n\n" ++
  "ENV PYTHONUNBUFFERED=1 \\\n" ++
  "    PYTHONIOENCODING=UTF-8 \\\n" ++
  "    PIP_NO_CACHE_DIR=yes \\\n" ++
  "    VIRTUAL_ENV=/install/.venv \\\n" ++
  "    PATH=\"/install/.venv/bin:$PATH\"\n\n" ++
  "RUN apk add --no-cache \\\n" ++
  "    ca-certificates \\\n" ++
  "    openssh \\\n" ++
  "    git \\\n" ++
  "    python3 \\\n" ++
  "    py3-pip \\\n" ++
  "    && python3 -m venv $VIRTUAL_ENV \\\n" ++
  "    && pip install --no-cache-dir ansible "

/-- Everything of `DOCKERFILE_TEMPLATE` after the placeholder. -/
def dockerfilePost : String :=
  " \\\n    && rm -rf /tmp/* /var/cache/apk/* /root/.cache\n"

end Config

namespace Core

/-- Application of `core.translate_path` to one command token:
`translate_path(arg) if Path(arg).exists() else arg`. -/
def translateArg (cwd : List String) (pathExists : String → Bool)
    (arg : String) : Except String String :=
  if pathExists arg then translate_path cwd arg else Except.ok arg

/-- The list comprehension over the command tokens; Python raises out of
the comprehension at the first failing token. -/
def translateAll (cwd : List String) (pathExists : String → Bool) :
    List String → Except String (List String)
  | [] => Except.ok []
  | arg :: rest =>
    match translateArg cwd pathExists arg with
    | Except.error e => Except.error e
    | Except.ok t =>
      match translateAll cwd pathExists rest with
      | Except.error e => Except.error e
      | Except.ok ts => Except.ok (t :: ts)

/-- Rendering `str(Path.cwd())` for a resolved component list. -/
def renderCwd (cwd : List String) : String :=
  "/" ++ String.intercalate "/" cwd

/-- The fixed `cmd += [...]` block of `DockerRunner.prepare_run_args`
(lines 133-154 of `core.py`). -/
def fixedRunArgs (uid gid : Nat) (cwd : List String) : List String :=
  ["--rm",
   "--name", "ansible-toolbox",
   "--network", "host",
   "--user", toString uid ++ ":" ++ toString gid,
   "--cap-drop", "NET_BIND_SERVICE",
   "--cap-drop", "SETUID",
   "--cap-drop", "SETGID",
   "--security-opt", "no-new-privileges",
   "-v", "/etc/passwd:/etc/passwd:ro,z",
   "-v", "/etc/group:/etc/group:ro,z",
   "-v", "/tmp:/tmp:z",
   "-v", "/var/tmp:/var/tmp:z",
   "-v", renderCwd cwd ++ ":/workspace:ro,z",
   "-e", "HOME=/tmp",
   "-e", "TERM=xterm-256color",
   "-e", "ANSIBLE_LOCAL_TEMP=/tmp",
   "-e", "ANSIBLE_REMOTE_TEMP=/tmp/$(whoami)",
   "-e", "ANSIBLE_STDOUT_CALLBACK=debug",
   "-e", "ANSIBLE_CONFIG=/workspace/ansible.cfg",
   "-e", "ANSIBLE_FORCE_COLOR=1"]

/-- Model of `DockerRunner.prepare_run_args`.  `binary` is `self._binary` (the
resolved docker executable); extra volumes and env vars are appended as
the single tokens `"-v <v>"` / `"-e <e>"` (f-string per element), guarded
by Python's truthiness test on the sequence. -/
def prepare_run_args (binary : String) (uid gid : Nat) (cwd : List String)
    (pathExists : String → Bool) (command : List String)
    (interactive : Bool) (volumes env_vars : List String) :
    Except String (List String) :=
  let cmd := [binary, "run"]
  let cmd := if interactive then cmd ++ ["-it"] else cmd
  let cmd := cmd ++ fixedRunArgs uid gid cwd
  let cmd := if volumes.isEmpty then cmd
    else cmd ++ volumes.map (fun v => "-v " ++ v)
  let cmd := if env_vars.isEmpty then cmd
    else cmd ++ env_vars.map (fun e => "-e " ++ e)
  let cmd := cmd ++ [Config.DEFAULT_IMAGE_NAME, "/bin/sh"]
  if interactive then Except.ok cmd
  else
    match translateAll cwd pathExists command with
    | Except.error e => Except.error e
    | Except.ok translated_cmd =>
      Except.ok (cmd ++
        ["-c", "cd /workspace && " ++ String.intercalate " " translated_cmd])

/-- Canonical grouping of the non-script part of `prepare_run_args`:
everything up to and including `<image> /bin/sh`. -/
def baseArgs (binary : String) (uid gid : Nat) (cwd : List String)
    (interactive : Bool) (volumes env_vars : List String) : List String :=
  [binary, "run"] ++ (if interactive then ["-it"] else []) ++
  fixedRunArgs uid gid cwd ++
  volumes.map (fun v => "-v " ++ v) ++
  env_vars.map (fun e => "-e " ++ e) ++
  [Config.DEFAULT_IMAGE_NAME, "/bin/sh"]

/-- Canonical form of the trailing script part of `prepare_run_args`:
empty in interactive mode, `-c "cd /workspace && <joined command>"`
otherwise. -/
def scriptArgs (cwd : List String) (pathExists : String → Bool)
    (command : List String) (interactive : Bool) :
    Except String (List String) :=
  if interactive then Except.ok []
  else Except.map
    (fun t => ["-c", "cd /workspace && " ++ String.intercalate " " t])
    (translateAll cwd pathExists command)

/-- Model of `DockerRunner.is_image_present`: the `docker image inspect` call is
represented by its exit code; `check=False`, so no exception is possible
and the result is `returncode == 0`. -/
def is_image_present (returncode : Int) : Bool :=
  returncode == 0

/-- Model of `AnsibleToolbox.ensure_image`: it attempts a build exactly when
`is_image_present` is false; this function reports whether the build step
is reached. -/
def ensure_image_builds (returncode : Int) : Bool :=
  !(is_image_present returncode)

/-- Model of `AnsibleToolbox._generate_dockerfile`: join caller packages with the
defaults and substitute into the template. -/
def generate_dockerfile (python_packages : List String) : String :=
  let packages :=
    String.intercalate " " (python_packages ++ Config.DEFAULT_PYTHON_PACKAGES)
  Config.templateSubstitute Config.DOCKERFILE_TEMPLATE packages

end Core

namespace Cli

/-- Per-token translation of `__main__.prepare_arguments` (uses the
`__main__` variant of `translate_path`). -/
def translateArg (cwd : List String) (pathExists : String → Bool)
    (arg : String) : Except String String :=
  if pathExists arg then translate_path cwd arg else Except.ok arg

/-- The list comprehension over the command tokens in `__main__`. -/
def translateAll (cwd : List String) (pathExists : String → Bool) :
    List String → Except String (List String)
  | [] => Except.ok []
  | arg :: rest =>
    match translateArg cwd pathExists arg with
    | Except.error e => Except.error e
    | Except.ok t =>
      match translateAll cwd pathExists rest with
      | Except.error e => Except.error e
      | Except.ok ts => Except.ok (t :: ts)

/-- The fixed `docker_cmd += [...]` block of `__main__.prepare_arguments`
(lines 173-194 of `__main__.py`); textually identical to the block in
`core.py`. -/
def fixedRunArgs (uid gid : Nat) (cwd : List String) : List String :=
  ["--rm",
   "--name", "ansible-toolbox",
   "--network", "host",
   "--user", toString uid ++ ":" ++ toString gid,
   "--cap-drop", "NET_BIND_SERVICE",
   "--cap-drop", "SETUID",
   "--cap-drop", "SETGID",
   "--security-opt", "no-new-privileges",
   "-v", "/etc/passwd:/etc/passwd:ro,z",
   "-v", "/etc/group:/etc/group:ro,z",
   "-v", "/tmp:/tmp:z",
   "-v", "/var/tmp:/var/tmp:z",
   "-v", Core.renderCwd cwd ++ ":/workspace:ro,z",
   "-e", "HOME=/tmp",
   "-e", "TERM=xterm-256color",
   "-e", "ANSIBLE_LOCAL_TEMP=/tmp",
   "-e", "ANSIBLE_REMOTE_TEMP=/tmp/$(whoami)",
   "-e", "ANSIBLE_STDOUT_CALLBACK=debug",
   "-e", "ANSIBLE_CONFIG=/workspace/ansible.cfg",
   "-e", "ANSIBLE_FORCE_COLOR=1"]

/-- Model of `__main__.prepare_arguments`.  The command starts with the literal
token `"docker"`; each extra volume and env var is appended as two
tokens (`for volume in extra_volumes: docker_cmd += ["-v", volume]`). -/
def prepare_arguments (uid gid : Nat) (cwd : List String)
    (pathExists : String → Bool) (arguments : List String)
    (interactive : Bool) (extra_volumes extra_envs : List String) :
    Except String (List String) :=
  let docker_cmd := ["docker", "run"]
  let docker_cmd := if interactive then docker_cmd ++ ["-it"] else docker_cmd
  let docker_cmd := docker_cmd ++ fixedRunArgs uid gid cwd
  let docker_cmd := docker_cmd ++ extra_volumes.flatMap (fun v => ["-v", v])
  let docker_cmd := docker_cmd ++ extra_envs.flatMap (fun e => ["-e", e])
  let docker_cmd := docker_cmd ++ ["ansible-toolbox:latest", "/bin/sh"]
  if interactive then Except.ok docker_cmd
  else
    match translateAll cwd pathExists arguments with
    | Except.error e => Except.error e
    | Except.ok translated_args =>
      Except.ok (docker_cmd ++
        ["-c", "cd /workspace && " ++ String.intercalate " " translated_args])

/-- Canonical grouping of the non-script part of `prepare_arguments`. -/
def baseArgs (uid gid : Nat) (cwd : List String) (interactive : Bool)
    (extra_volumes extra_envs : List String) : List String :=
  ["docker", "run"] ++ (if interactive then ["-it"] else []) ++
  fixedRunArgs uid gid cwd ++
  extra_volumes.flatMap (fun v => ["-v", v]) ++
  extra_envs.flatMap (fun e => ["-e", e]) ++
  ["ansible-toolbox:latest", "/bin/sh"]

/-- Canonical form of the trailing script part of `prepare_arguments`. -/
def scriptArgs (cwd : List String) (pathExists : String → Bool)
    (arguments : List String) (interactive : Bool) :
    Except String (List String) :=
  if interactive then Except.ok []
  else Except.map
    (fun t => ["-c", "cd /workspace && " ++ String.intercalate " " t])
    (translateAll cwd pathExists arguments)

/-- Model of `__main__.check_docker_image`: exit code of `docker image inspect`,
`check=False`, result `returncode == 0`. -/
def check_docker_image (returncode : Int) : Bool :=
  returncode == 0

/-! ### Control flow of `__main__.main`

The parsed argparse namespace, the container operations attempted, and how
the process terminates.  `parser.error(msg)` prints a usage line and
`prog: error: msg` to standard error and raises `SystemExit(2)`;
`SystemExit` is not an `Exception`, so neither `except` clause of `main`
catches it (the usage line itself is argparse-internal and elided here).
`build_docker_image` runs `subprocess.run(..., check=True)`, so a failed
build raises `CalledProcessError`, caught by the `except Exception`
clause.  A `ValueError` from `translate_path` is caught by the
`except ValueError` clause.  Both clauses print to stderr and exit 1. -/

structure Args where
  help : Bool
  command : List String
  interactive : Bool
  additional_python_packages : List String
  volumes : List String
  envs : List String
deriving DecidableEq

/-- Container operations `main` can attempt, in order. -/
inductive Action where
  | imageInspect
  | imageBuild
  | execRun
deriving DecidableEq

/-- How the `main` process ends: `sys.exit(code)` or `os.execvp(argv)`. -/
inductive Termination where
  | exited (code : Nat)
  | execed (argv : List String)
deriving DecidableEq

/-- One run of `__main__.main`: termination, the container operations
attempted (in order), and the lines printed to standard error.
Environmental inputs: `prog` (argparse program name), `dockerBin`
(`shutil.which("docker")`), `inspectRc` (exit code of
`docker image inspect`), `buildOk` (whether `docker build` exits 0),
`cwd` and `pathExists` as for the builders. -/
def main (prog : String) (dockerBin : Option String) (args : Args)
    (inspectRc : Int) (buildOk : Bool) (uid gid : Nat) (cwd : List String)
    (pathExists : String → Bool) :
    Termination × List Action × List String :=
  match dockerBin with
  | none =>
    (Termination.exited 1, [], ["Error: Docker is not installed or not in PATH"])
  | some _ =>
    if args.help then (Termination.exited 0, [], [])
    else if args.command.isEmpty then
      (Termination.exited 2, [],
       [prog ++ ": error: the following arguments are required: command"])
    else if !(check_docker_image inspectRc) && !buildOk then
      (Termination.exited 1, [Action.imageInspect, Action.imageBuild],
       ["An unexpected error occurred: Command returned non-zero exit status."])
    else
      let acts := if check_docker_image inspectRc
        then [Action.imageInspect]
        else [Action.imageInspect, Action.imageBuild]
      match prepare_arguments uid gid cwd pathExists args.command
          args.interactive args.volumes args.envs with
      | Except.error e => (Termination.exited 1, acts, ["Error: " ++ e])
      | Except.ok argv => (Termination.execed argv, acts ++ [Action.execRun], [])

end Cli

/-! ## Helper lemmas -/

/-- Behaviour of `String.intercalate` on a two-element list. -/
theorem intercalate_pair (s a b : String) :
    String.intercalate s [a, b] = a ++ s ++ b := rfl

/-- Behaviour of `String.intercalate` on a singleton list. -/
theorem intercalate_single (s a : String) :
    String.intercalate s [a] = a := rfl

theorem intercalate_go_append (s x : String) :
    ∀ (l : List String) (acc : String),
      String.intercalate.go acc s (l ++ [x]) =
        String.intercalate.go acc s l ++ s ++ x := by
  intro l
  induction l with
  | nil => intro acc; rfl
  | cons a as ih =>
    intro acc
    show String.intercalate.go (acc ++ s ++ a) s (as ++ [x]) = _
    rw [ih]
    rfl

/-- Appending two further elements to a nonempty list extends the
intercalation on the right. -/
theorem intercalate_append_pair (s d1 d2 : String) (l : List String)
    (h : l ≠ []) :
    String.intercalate s (l ++ [d1, d2]) =
      String.intercalate s l ++ s ++ d1 ++ s ++ d2 := by
  match l, h with
  | a :: as, _ =>
    show String.intercalate.go a s (as ++ [d1, d2]) = _
    have : as ++ [d1, d2] = (as ++ [d1]) ++ [d2] := by simp
    rw [this, intercalate_go_append, intercalate_go_append]
    rfl

/-- The two `translate_path` variants agree except that the `__main__`
error message carries a trailing period. -/
theorem translate_path_cli_eq_core (cwd : List String) (p : String) :
    Cli.translate_path cwd p =
      Except.mapError (fun m => m ++ ".") (Core.translate_path cwd p) := by
  unfold Cli.translate_path Core.translate_path
  by_cases h : List.isPrefixOf cwd (resolvePath cwd p)
  · simp [h, Except.mapError]
  · simp [h, Except.mapError]
    rw [String.append_assoc, String.append_assoc, String.append_assoc]
    rfl

theorem translateAll_cli_eq_core (cwd : List String)
    (pathExists : String → Bool) (command : List String) :
    Cli.translateAll cwd pathExists command =
      Except.mapError (fun m => m ++ ".")
        (Core.translateAll cwd pathExists command) := by
  induction command with
  | nil => rfl
  | cons a rest ih =>
    unfold Cli.translateAll Core.translateAll
    unfold Cli.translateArg Core.translateArg
    rw [translate_path_cli_eq_core, ih]
    by_cases hx : pathExists a
    · cases Core.translate_path cwd a with
      | error e => simp [hx, Except.mapError]
      | ok t =>
        cases Core.translateAll cwd pathExists rest <;>
          simp [hx, Except.mapError]
    · cases Core.translateAll cwd pathExists rest <;>
        simp [hx, Except.mapError]

/-- Canonical form of `DockerRunner.prepare_run_args`. -/
theorem core_prepare_run_args_eq (binary : String) (uid gid : Nat)
    (cwd : List String) (pathExists : String → Bool)
    (command : List String) (interactive : Bool)
    (volumes env_vars : List String) :
    Core.prepare_run_args binary uid gid cwd pathExists command
        interactive volumes env_vars =
      Except.map
        (fun tail =>
          Core.baseArgs binary uid gid cwd interactive volumes env_vars ++ tail)
        (Core.scriptArgs cwd pathExists command interactive) := by
  unfold Core.prepare_run_args Core.baseArgs Core.scriptArgs
  cases interactive with
  | true => cases volumes <;> cases env_vars <;> simp [Except.map]
  | false =>
    cases h : Core.translateAll cwd pathExists command <;>
      cases volumes <;> cases env_vars <;> simp [Except.map, h]

/-- Canonical form of `__main__.prepare_arguments`. -/
theorem cli_prepare_arguments_eq (uid gid : Nat) (cwd : List String)
    (pathExists : String → Bool) (arguments : List String)
    (interactive : Bool) (extra_volumes extra_envs : List String) :
    Cli.prepare_arguments uid gid cwd pathExists arguments
        interactive extra_volumes extra_envs =
      Except.map
        (fun tail =>
          Cli.baseArgs uid gid cwd interactive extra_volumes extra_envs ++ tail)
        (Cli.scriptArgs cwd pathExists arguments interactive) := by
  unfold Cli.prepare_arguments Cli.baseArgs Cli.scriptArgs
  cases interactive with
  | true => simp [Except.map]
  | false =>
    cases h : Cli.translateAll cwd pathExists arguments <;>
      simp [Except.map, h]

/-- A list ending in `<image> /bin/sh` does not end in a `-c <script>`
pair. -/
theorem no_script_suffix (r A : List String)
    (h : r = A ++ ["ansible-toolbox:latest", "/bin/sh"]) :
    ¬ ∃ pre s, r = pre ++ ["-c", s] := by
  rintro ⟨pre, s, hcs⟩
  rw [h] at hcs
  have := (List.append_inj' hcs (by simp)).2
  simp at this

/-! ## Claims -/

/-- C1: for every path token `p` whose resolved absolute form is a
(strict) descendant of the working directory, both `translate_path`
variants return `/workspace/` followed by `p`'s path relative to the
working directory; for every `p` whose resolved form is outside the
working directory, both fail with a `ValueError` whose message carries the
offending path verbatim (nothing is dropped or truncated). -/
theorem c1_translate_path_boundary (cwd : List String) (p : String)
    (rel : List String) :
    (resolvePath cwd p = cwd ++ rel → rel ≠ [] →
      Core.translate_path cwd p =
        Except.ok ("/workspace/" ++ String.intercalate "/" rel) ∧
      Cli.translate_path cwd p =
        Except.ok ("/workspace/" ++ String.intercalate "/" rel)) ∧
    (List.isPrefixOf cwd (resolvePath cwd p) = false →
      Core.translate_path cwd p =
        Except.error ("Path " ++ p ++
          " is outside the current workspace and cannot be accessed in the container") ∧
      Cli.translate_path cwd p =
        Except.error ("Path " ++ p ++
          " is outside the current workspace and cannot be accessed in the container.")) := by
  constructor
  · intro h hne
    have hpre : List.isPrefixOf cwd (cwd ++ rel) = true := by
      simp [List.isPrefixOf_iff_prefix]
    have hdrop : (cwd ++ rel).drop cwd.length = rel := List.drop_left cwd rel
    match rel, hne with
    | a :: rs, _ =>
      constructor
      · simp [Core.translate_path, h, hpre, hdrop, workspaceJoin]
      · simp [Cli.translate_path, h, hpre, hdrop, workspaceJoin]
  · intro hout
    constructor
    · simp [Core.translate_path, hout]
    · simp [Cli.translate_path, hout]
      rw [String.append_assoc, String.append_assoc, String.append_assoc]
      rfl

/-- Witness for C1 at concrete inputs: from `/home/u`, the descendant
`/home/u/site.yml` maps to `/workspace/site.yml` in both variants, and the
outside path `/etc/shadow` is rejected with a message carrying it. -/
theorem c1_translate_path_boundary_witness :
    (Core.translate_path ["home", "u"] "/home/u/site.yml" =
        Except.ok "/workspace/site.yml" ∧
      Cli.translate_path ["home", "u"] "/home/u/site.yml" =
        Except.ok "/workspace/site.yml") ∧
    (Core.translate_path ["home", "u"] "/etc/shadow" =
        Except.error ("Path /etc/shadow is outside the current workspace" ++
          " and cannot be accessed in the container") ∧
      Cli.translate_path ["home", "u"] "/etc/shadow" =
        Except.error ("Path /etc/shadow is outside the current workspace" ++
          " and cannot be accessed in the container.")) := by
  constructor
  · have h := (c1_translate_path_boundary ["home", "u"] "/home/u/site.yml"
      ["site.yml"]).1 (by decide) (by decide)
    exact ⟨h.1.trans (by decide), h.2.trans (by decide)⟩
  · have h := (c1_translate_path_boundary ["home", "u"] "/etc/shadow"
      ["site.yml"]).2 (by decide)
    exact ⟨h.1.trans (by decide), h.2.trans (by decide)⟩

/-- C7: `translate_path` applied to a token that resolves to the working
directory itself yields exactly `/workspace` — no trailing separator, no
residual relative component — in both variants. -/
theorem c7_translate_path_cwd (cwd : List String) (p : String)
    (h : resolvePath cwd p = cwd) :
    Core.translate_path cwd p = Except.ok "/workspace" ∧
    Cli.translate_path cwd p = Except.ok "/workspace" := by
  have hpre : List.isPrefixOf cwd (resolvePath cwd p) = true := by
    rw [h]; simp [List.isPrefixOf_iff_prefix]
  have hdrop : (resolvePath cwd p).drop cwd.length = [] := by
    rw [h, List.drop_length]
  constructor
  · simp [Core.translate_path, hpre, hdrop, workspaceJoin]
  · simp [Cli.translate_path, hpre, hdrop, workspaceJoin]

/-- Witness for C7: from `/home/u`, both the absolute spelling `/home/u`
and the relative spelling `.` translate to exactly `/workspace`. -/
theorem c7_translate_path_cwd_witness :
    (Core.translate_path ["home", "u"] "/home/u" = Except.ok "/workspace" ∧
      Cli.translate_path ["home", "u"] "/home/u" = Except.ok "/workspace") ∧
    (Core.translate_path ["home", "u"] "." = Except.ok "/workspace" ∧
      Cli.translate_path ["home", "u"] "." = Except.ok "/workspace") :=
  ⟨c7_translate_path_cwd ["home", "u"] "/home/u" (by decide),
   c7_translate_path_cwd ["home", "u"] "." (by decide)⟩

/-- C2 counterexample: with the same working directory, uid/gid, command
(none), interactive flag and a single extra volume `/a:/b`, the two
builders give different argument sequences — `core.py` emits the single
token `-v /a:/b` where `__main__.py` emits the two tokens `-v`, `/a:/b`
(even with the runner binary pinned to the literal `docker`). -/
theorem c2_builders_differ_counterexample :
    Core.prepare_run_args "docker" 0 0 [] (fun _ => false) [] true
        ["/a:/b"] [] ≠
      Cli.prepare_arguments 0 0 [] (fun _ => false) [] true
        ["/a:/b"] [] := by
  decide

/-- C2 amended: with no extra volumes and no extra environment variables,
and the core runner's binary token equal to the literal `docker`, the two
builders agree on every invocation request — they succeed on exactly the
same requests with identical argument sequences, and on failure the
`__main__` error message is the core message plus a trailing period.
(When extras are supplied the sequences differ, as the counterexample
shows: `core.py` encodes each extra volume/env as one joined token,
`__main__.py` as two.) -/
theorem c2_builders_agree_no_extras (uid gid : Nat) (cwd : List String)
    (pathExists : String → Bool) (command : List String)
    (interactive : Bool) :
    Cli.prepare_arguments uid gid cwd pathExists command interactive [] [] =
      Except.mapError (fun m => m ++ ".")
        (Core.prepare_run_args "docker" uid gid cwd pathExists command
          interactive [] []) := by
  rw [core_prepare_run_args_eq, cli_prepare_arguments_eq]
  have hbase : Cli.baseArgs uid gid cwd interactive [] [] =
      Core.baseArgs "docker" uid gid cwd interactive [] [] := by
    simp [Cli.baseArgs, Core.baseArgs, Cli.fixedRunArgs, Core.fixedRunArgs,
      Config.DEFAULT_IMAGE_NAME]
  rw [hbase]
  unfold Cli.scriptArgs Core.scriptArgs
  rw [translateAll_cli_eq_core]
  cases interactive with
  | true => simp [Except.map, Except.mapError]
  | false =>
    cases Core.translateAll cwd pathExists command <;>
      simp [Except.map, Except.mapError]

theorem core_baseArgs_split (binary : String) (uid gid : Nat)
    (cwd : List String) (interactive : Bool)
    (volumes env_vars : List String) :
    Core.baseArgs binary uid gid cwd interactive volumes env_vars =
      ([binary, "run"] ++ (if interactive then ["-it"] else []) ++
        Core.fixedRunArgs uid gid cwd ++
        volumes.map (fun v => "-v " ++ v) ++
        env_vars.map (fun e => "-e " ++ e)) ++
      ["ansible-toolbox:latest", "/bin/sh"] := by
  simp [Core.baseArgs, Config.DEFAULT_IMAGE_NAME, List.append_assoc]

theorem cli_baseArgs_split (uid gid : Nat) (cwd : List String)
    (interactive : Bool) (extra_volumes extra_envs : List String) :
    Cli.baseArgs uid gid cwd interactive extra_volumes extra_envs =
      (["docker", "run"] ++ (if interactive then ["-it"] else []) ++
        Cli.fixedRunArgs uid gid cwd ++
        extra_volumes.flatMap (fun v => ["-v", v]) ++
        extra_envs.flatMap (fun e => ["-e", e])) ++
      ["ansible-toolbox:latest", "/bin/sh"] := by
  simp [Cli.baseArgs, List.append_assoc]

theorem core_baseArgs_no_script (binary : String) (uid gid : Nat)
    (cwd : List String) (interactive : Bool)
    (volumes env_vars : List String) :
    ¬ ∃ pre s, Core.baseArgs binary uid gid cwd interactive
        volumes env_vars = pre ++ ["-c", s] := by
  rintro ⟨pre, s, h⟩
  rw [core_baseArgs_split] at h
  have h2 := (List.append_inj' h (by simp)).2
  have h3 : "ansible-toolbox:latest" = "-c" := by injection h2
  exact absurd h3 (by decide)

theorem cli_baseArgs_no_script (uid gid : Nat) (cwd : List String)
    (interactive : Bool) (extra_volumes extra_envs : List String) :
    ¬ ∃ pre s, Cli.baseArgs uid gid cwd interactive
        extra_volumes extra_envs = pre ++ ["-c", s] := by
  rintro ⟨pre, s, h⟩
  rw [cli_baseArgs_split] at h
  have h2 := (List.append_inj' h (by simp)).2
  have h3 : "ansible-toolbox:latest" = "-c" := by injection h2
  exact absurd h3 (by decide)

/-- C3: whenever either builder succeeds, in interactive mode the built
run-argument sequence carries no trailing `-c <script>` pair, while in
non-interactive mode it always ends with `-c` followed by a script that
begins with `cd /workspace && `. -/
theorem c3_interactive_script (binary : String) (uid gid : Nat)
    (cwd : List String) (pathExists : String → Bool)
    (command volumes env_vars : List String) :
    (∀ r, Core.prepare_run_args binary uid gid cwd pathExists command
        true volumes env_vars = Except.ok r →
      ¬ ∃ pre s, r = pre ++ ["-c", s]) ∧
    (∀ r, Core.prepare_run_args binary uid gid cwd pathExists command
        false volumes env_vars = Except.ok r →
      ∃ pre s, r = pre ++ ["-c", s] ∧
        ∃ rest, s = "cd /workspace && " ++ rest) ∧
    (∀ r, Cli.prepare_arguments uid gid cwd pathExists command
        true volumes env_vars = Except.ok r →
      ¬ ∃ pre s, r = pre ++ ["-c", s]) ∧
    (∀ r, Cli.prepare_arguments uid gid cwd pathExists command
        false volumes env_vars = Except.ok r →
      ∃ pre s, r = pre ++ ["-c", s] ∧
        ∃ rest, s = "cd /workspace && " ++ rest) := by
  refine ⟨fun r h => ?_, fun r h => ?_, fun r h => ?_, fun r h => ?_⟩
  · rw [core_prepare_run_args_eq] at h
    simp [Core.scriptArgs, Except.map] at h
    rw [← h]
    exact core_baseArgs_no_script binary uid gid cwd true volumes env_vars
  · rw [core_prepare_run_args_eq] at h
    unfold Core.scriptArgs at h
    cases htr : Core.translateAll cwd pathExists command with
    | error e => rw [htr] at h; simp [Except.map] at h
    | ok t =>
      rw [htr] at h
      simp [Except.map] at h
      exact ⟨Core.baseArgs binary uid gid cwd false volumes env_vars,
        "cd /workspace && " ++ String.intercalate " " t, h.symm,
        String.intercalate " " t, rfl⟩
  · rw [cli_prepare_arguments_eq] at h
    simp [Cli.scriptArgs, Except.map] at h
    rw [← h]
    exact cli_baseArgs_no_script uid gid cwd true volumes env_vars
  · rw [cli_prepare_arguments_eq] at h
    unfold Cli.scriptArgs at h
    cases htr : Cli.translateAll cwd pathExists command with
    | error e => rw [htr] at h; simp [Except.map] at h
    | ok t =>
      rw [htr] at h
      simp [Except.map] at h
      exact ⟨Cli.baseArgs uid gid cwd false volumes env_vars,
        "cd /workspace && " ++ String.intercalate " " t, h.symm,
        String.intercalate " " t, rfl⟩

/-- Witness for C3: concrete invocation (command `echo`, no extras, cwd
`/`, no token an existing path); all four success hypotheses are
discharged by evaluation. -/
theorem c3_interactive_script_witness :
    (¬ ∃ pre s, Core.baseArgs "docker" 0 0 [] true [] [] =
      pre ++ ["-c", s]) ∧
    (∃ pre s, Core.baseArgs "docker" 0 0 [] false [] [] ++
        ["-c", "cd /workspace && echo"] = pre ++ ["-c", s] ∧
      ∃ rest, s = "cd /workspace && " ++ rest) ∧
    (¬ ∃ pre s, Cli.baseArgs 0 0 [] true [] [] = pre ++ ["-c", s]) ∧
    (∃ pre s, Cli.baseArgs 0 0 [] false [] [] ++
        ["-c", "cd /workspace && echo"] = pre ++ ["-c", s] ∧
      ∃ rest, s = "cd /workspace && " ++ rest) := by
  have h := c3_interactive_script "docker" 0 0 [] (fun _ => false)
    ["echo"] [] []
  exact ⟨h.1 _ (by decide), h.2.1 _ (by decide),
    h.2.2.1 _ (by decide), h.2.2.2 _ (by decide)⟩

/-- C4: in both builders, caller-supplied extra volumes and extra
environment variables appear in the output in exactly the supplied order
(an order-preserving image of the input lists, with no deduplication and
no validation), positioned directly after the complete fixed mandatory
mount/environment block and before the image/shell tokens. -/
theorem c4_extras_after_fixed (binary : String) (uid gid : Nat)
    (cwd : List String) (pathExists : String → Bool)
    (command : List String) (interactive : Bool)
    (volumes env_vars : List String) :
    Core.prepare_run_args binary uid gid cwd pathExists command
        interactive volumes env_vars =
      Except.map
        (fun tail =>
          ([binary, "run"] ++ (if interactive then ["-it"] else []) ++
            Core.fixedRunArgs uid gid cwd) ++
          volumes.map (fun v => "-v " ++ v) ++
          env_vars.map (fun e => "-e " ++ e) ++
          (["ansible-toolbox:latest", "/bin/sh"] ++ tail))
        (Core.scriptArgs cwd pathExists command interactive) ∧
    Cli.prepare_arguments uid gid cwd pathExists command
        interactive volumes env_vars =
      Except.map
        (fun tail =>
          (["docker", "run"] ++ (if interactive then ["-it"] else []) ++
            Cli.fixedRunArgs uid gid cwd) ++
          volumes.flatMap (fun v => ["-v", v]) ++
          env_vars.flatMap (fun e => ["-e", e]) ++
          (["ansible-toolbox:latest", "/bin/sh"] ++ tail))
        (Cli.scriptArgs cwd pathExists command interactive) := by
  constructor
  · rw [core_prepare_run_args_eq]
    congr 1
    funext tail
    simp [Core.baseArgs, Config.DEFAULT_IMAGE_NAME, List.append_assoc]
  · rw [cli_prepare_arguments_eq]
    congr 1
    funext tail
    simp [Cli.baseArgs, List.append_assoc]

/-- C9: in non-interactive mode the in-container script is exactly
`cd /workspace && ` followed by the translated command tokens joined with
single spaces — no quoting or escaping of any token.  Consequently a
token containing a space produces exactly the same invocation as the two
split tokens: word boundaries are not preserved. -/
theorem c9_script_no_quoting (binary : String) (uid gid : Nat)
    (cwd : List String) (pathExists : String → Bool)
    (command volumes env_vars : List String) (t : List String) :
    (Core.translateAll cwd pathExists command = Except.ok t →
      Core.prepare_run_args binary uid gid cwd pathExists command
          false volumes env_vars =
        Except.ok (Core.baseArgs binary uid gid cwd false volumes env_vars ++
          ["-c", "cd /workspace && " ++ String.intercalate " " t])) ∧
    (Cli.translateAll cwd pathExists command = Except.ok t →
      Cli.prepare_arguments uid gid cwd pathExists command
          false volumes env_vars =
        Except.ok (Cli.baseArgs uid gid cwd false volumes env_vars ++
          ["-c", "cd /workspace && " ++ String.intercalate " " t])) ∧
    (∀ a b : String,
      Core.prepare_run_args binary uid gid cwd (fun _ => false)
          [a ++ " " ++ b] false volumes env_vars =
        Core.prepare_run_args binary uid gid cwd (fun _ => false)
          [a, b] false volumes env_vars ∧
      [a ++ " " ++ b] ≠ [a, b]) := by
  refine ⟨fun htr => ?_, fun htr => ?_, fun a b => ⟨?_, by simp⟩⟩
  · rw [core_prepare_run_args_eq]
    simp [Core.scriptArgs, htr, Except.map]
  · rw [cli_prepare_arguments_eq]
    simp [Cli.scriptArgs, htr, Except.map]
  · rw [core_prepare_run_args_eq, core_prepare_run_args_eq]
    simp [Core.scriptArgs, Core.translateAll, Core.translateArg,
      Except.map, intercalate_pair, intercalate_single]

/-- Witness for C9 at a concrete invocation (command `echo`, cwd `/`, no
token an existing path): both translation hypotheses are discharged by
evaluation. -/
theorem c9_script_no_quoting_witness :
    Core.prepare_run_args "docker" 0 0 [] (fun _ => false) ["echo"]
        false [] [] =
      Except.ok (Core.baseArgs "docker" 0 0 [] false [] [] ++
        ["-c", "cd /workspace && " ++ String.intercalate " " ["echo"]]) ∧
    Cli.prepare_arguments 0 0 [] (fun _ => false) ["echo"]
        false [] [] =
      Except.ok (Cli.baseArgs 0 0 [] false [] [] ++
        ["-c", "cd /workspace && " ++ String.intercalate " " ["echo"]]) := by
  have h := c9_script_no_quoting "docker" 0 0 [] (fun _ => false)
    ["echo"] [] [] ["echo"]
  exact ⟨h.1 (by decide), h.2.1 (by decide)⟩

/-- C5 counterexample: with an interactive session requested and an empty
command, `main` does NOT accept the invocation — it terminates with the
argparse usage error (status 2) before any container operation, refuting
the claimed interactive exemption. -/
theorem c5_interactive_empty_rejected_counterexample :
    Cli.main "ansible-toolbox" (some "/usr/bin/docker")
        ⟨false, [], true, [], [], []⟩ 0 true 0 0 [] (fun _ => false) =
      (Cli.Termination.exited 2, [],
       ["ansible-toolbox: error: the following arguments are required: command"]) := by
  decide

/-- C5 amended: an empty command is rejected unconditionally — whether or
not an interactive session is requested — with an argparse usage error,
before any container operation is attempted; a non-empty command always
passes the check and reaches the image-inspection step. -/
theorem c5_empty_command_check (prog dockerBin : String) (args : Cli.Args)
    (inspectRc : Int) (buildOk : Bool) (uid gid : Nat)
    (cwd : List String) (pathExists : String → Bool) :
    (args.help = false → args.command = [] →
      Cli.main prog (some dockerBin) args inspectRc buildOk uid gid cwd
          pathExists =
        (Cli.Termination.exited 2, [],
         [prog ++ ": error: the following arguments are required: command"])) ∧
    (args.help = false → args.command ≠ [] →
      (Cli.main prog (some dockerBin) args inspectRc buildOk uid gid cwd
          pathExists).2.1.head? = some Cli.Action.imageInspect) := by
  constructor
  · intro hh hc
    simp [Cli.main, hh, hc]
  · intro hh hc
    match hcmd : args.command, hc with
    | a :: as, _ =>
      unfold Cli.main
      rw [hh, hcmd]
      simp only [Bool.false_eq_true, if_false, List.isEmpty_cons]
      by_cases hci : Cli.check_docker_image inspectRc <;>
        cases buildOk <;>
          cases hp : Cli.prepare_arguments uid gid cwd pathExists (a :: as)
            args.interactive args.volumes args.envs <;>
            simp [hci, hp]

/-- Witness for C5 at concrete inputs: an interactive request with empty
command is rejected with no container action, and a non-interactive
request with command `echo` reaches image inspection. -/
theorem c5_empty_command_check_witness :
    Cli.main "at" (some "/usr/bin/docker") ⟨false, [], true, [], [], []⟩
        0 true 0 0 [] (fun _ => false) =
      (Cli.Termination.exited 2, [],
       ["at: error: the following arguments are required: command"]) ∧
    (Cli.main "at" (some "/usr/bin/docker")
        ⟨false, ["echo"], false, [], [], []⟩
        0 true 0 0 [] (fun _ => false)).2.1.head? =
      some Cli.Action.imageInspect := by
  constructor
  · exact (c5_empty_command_check "at" "/usr/bin/docker"
      ⟨false, [], true, [], [], []⟩ 0 true 0 0 []
      (fun _ => false)).1 (by decide) (by decide)
  · exact (c5_empty_command_check "at" "/usr/bin/docker"
      ⟨false, ["echo"], false, [], [], []⟩ 0 true 0 0 []
      (fun _ => false)).2 (by decide) (by decide)

/-- C6: invoking the program with no positional command and without
`--at-help` terminates via the argparse usage error: the process exits
with status 2 — not 1 as the specification and the repository's own test
expect — while standard error does carry a message mentioning `command`.
`parser.error` raises `SystemExit(2)`, which neither `except` clause of
`main` catches. -/
theorem c6_no_command_exits_two :
    Cli.main "ansible-toolbox" (some "/usr/bin/docker")
        ⟨false, [], false, [], [], []⟩ 0 true 0 0 [] (fun _ => false) =
      (Cli.Termination.exited 2, [],
       ["ansible-toolbox: error: the following arguments are required: command"]) ∧
    mentions
      "ansible-toolbox: error: the following arguments are required: command"
      "command" = true ∧
    (2 : Nat) ≠ 1 := by
  refine ⟨by decide, by decide, by decide⟩

set_option maxRecDepth 8192 in
/-- C8: Dockerfile generation is a deterministic template substitution;
the package-install line receives the caller-supplied packages first,
then the fixed defaults `requests==2.32.3` and `docker==7.1.0`,
space-separated, in that order (`dockerfilePre` ends with the install
line `... pip install --no-cache-dir ansible `). -/
theorem c8_dockerfile_packages (pkgs : List String) :
    Core.generate_dockerfile pkgs =
      Config.dockerfilePre ++
        String.intercalate " " (pkgs ++ Config.DEFAULT_PYTHON_PACKAGES) ++
        Config.dockerfilePost ∧
    Config.DEFAULT_PYTHON_PACKAGES = ["requests==2.32.3", "docker==7.1.0"] ∧
    (pkgs ≠ [] →
      String.intercalate " " (pkgs ++ Config.DEFAULT_PYTHON_PACKAGES) =
        String.intercalate " " pkgs ++ " requests==2.32.3 docker==7.1.0") := by
  refine ⟨?_, rfl, fun h => ?_⟩
  · have hsplit : splitOnStr Config.DOCKERFILE_TEMPLATE
        "%additional_packages" =
        [Config.dockerfilePre, Config.dockerfilePost] := by decide
    unfold Core.generate_dockerfile Config.templateSubstitute
    rw [hsplit, intercalate_pair]
  · show String.intercalate " "
      (pkgs ++ ["requests==2.32.3", "docker==7.1.0"]) = _
    rw [intercalate_append_pair " " "requests==2.32.3" "docker==7.1.0" pkgs h]
    rw [String.append_assoc, String.append_assoc, String.append_assoc]
    exact congrArg (String.intercalate " " pkgs ++ ·) (by decide)

/-- Witness for C8 at the spec's example `--at-add-py-package foo`: the
caller package comes first, then the fixed defaults. -/
theorem c8_dockerfile_packages_witness :
    String.intercalate " " (["foo"] ++ Config.DEFAULT_PYTHON_PACKAGES) =
      String.intercalate " " ["foo"] ++
        " requests==2.32.3 docker==7.1.0" :=
  (c8_dockerfile_packages ["foo"]).2.2 (by decide)

/-- C10: both image-presence checks are total boolean functions of the
inspect exit code, true exactly on exit 0 — so every non-zero exit
(including runtime failures unrelated to image absence) reads as "image
absent" — and `ensure_image` attempts a build exactly in that case. -/
theorem c10_image_presence (rc : Int) :
    (Core.is_image_present rc = true ↔ rc = 0) ∧
    Cli.check_docker_image rc = Core.is_image_present rc ∧
    (Core.ensure_image_builds rc = true ↔ rc ≠ 0) := by
  refine ⟨?_, rfl, ?_⟩
  · simp [Core.is_image_present]
  · simp [Core.ensure_image_builds, Core.is_image_present]

end AnsibleToolbox
